import Mathlib

/-!
Verification of the scenario-valuation formulas of the repository.

The computational core lives inline in src/Introduction.py,
src/pages/01_Assigning_Probabilities_to_Climate_Scenarios.py and
src/pages/02_State-Dependent_Discount_Factor.py: a probability-weighted
two-state price, a stochastic-discount-factor price, derived return
diagnostics, and a transition-cost / physical-damage trade-off curve.
The formulas are embedded over the rationals (the source evaluates them on
float scalars; the formulas themselves are exact field arithmetic), with a
parallel real-valued copy of the two-state price for the analytic
properties.  Input validation and typed failures exist only in the
specification (the source bounds every input through a UI slider or radio
widget), so the checked variants are modelled from the spec and say so in
their doc comments.
-/

/-- Error kinds of the valuation engine.  Modelled from the spec: the source
has no validation code (inputs are bounded by UI sliders), so the error kinds
come from the specification's error-handling design. -/
inductive EngineError where
  | InvalidProbability
  | InvalidDiscountRate
  | InvalidDiscountFactor
  | OutOfRange
  | DivisionByZero
deriving DecidableEq

/-- Two-state scenario record: cash flow and discount rate in state A and in
state B, and the probability of state A; src/Introduction.py lines 115-123. -/
structure TwoStateScenario where
  cf_a : ℚ
  r_a : ℚ
  cf_b : ℚ
  r_b : ℚ
  prob_a : ℚ
deriving DecidableEq

/-- Probability-weighted two-state price, from src/Introduction.py lines
123-128 (identical code at src/pages/01 lines 49-54): prob_b = 1 - prob_a;
expected_cf = prob_a*cf_a + prob_b*cf_b; expected_r = prob_a*r_a + prob_b*r_b;
price = expected_cf / (1 + expected_r). -/
def price_two_state (s : TwoStateScenario) : ℚ :=
  let prob_b := 1 - s.prob_a
  let expected_cf := s.prob_a * s.cf_a + prob_b * s.cf_b
  let expected_r := s.prob_a * s.r_a + prob_b * s.r_b
  expected_cf / (1 + expected_r)

/-- Stochastic-discount scenario record: state-dependent cash flows, pricing
kernel values and the probability of the up state; src/Introduction.py lines
376-383 and src/pages/02 lines 319-329. -/
structure StochasticDiscountScenario where
  cf_u : ℚ
  cf_d : ℚ
  m_u : ℚ
  m_d : ℚ
  prob_u : ℚ
deriving DecidableEq

/-- Modelled from the spec: the general-probability stochastic-discount price
prob_u*m_u*cf_u + (1-prob_u)*m_d*cf_d.  The source fixes both state
probabilities to 0.5 (src/Introduction.py line 386 and src/pages/02 line 338
compute price = 0.5*m_u*cf_u + 0.5*m_d*cf_d); the prob_u parameter is the
spec's generalization and recovers the source formula at prob_u = 1/2. -/
def price_stochastic_discount (s : StochasticDiscountScenario) : ℚ :=
  s.prob_u * s.m_u * s.cf_u + (1 - s.prob_u) * s.m_d * s.cf_d

/-- Result record of the trade-off operation: transition cost and physical
damage, both as a percentage of GDP. -/
structure TradeoffResult where
  transition_cost_pct : ℚ
  physical_damage_pct : ℚ
deriving DecidableEq

/-- Transition-cost / physical-damage trade-off, from src/Introduction.py
lines 500-506: abatement_fraction = abatement/100;
transition_cost = 2 * abatement_fraction^2;
physical_damage = (1 - abatement_fraction)^2. -/
def transition_physical_tradeoff (abatement_pct : ℚ) : TradeoffResult :=
  let abatement_fraction := abatement_pct / 100
  { transition_cost_pct := 2 * abatement_fraction ^ 2
    physical_damage_pct := (1 - abatement_fraction) ^ 2 }

/-- Modelled from the spec: validated two-state price.  The source has no
validation (the slider at src/Introduction.py line 122 bounds prob_a to
[0, 1]); the spec requires prob_a in [0, 1] (InvalidProbability otherwise)
and 1+r_a, 1+r_b positive (InvalidDiscountRate otherwise), checked in that
order, with no clamping or default substitution. -/
def price_two_state_checked (s : TwoStateScenario) : Except EngineError ℚ :=
  if 0 ≤ s.prob_a ∧ s.prob_a ≤ 1 then
    if 0 < 1 + s.r_a ∧ 0 < 1 + s.r_b then .ok (price_two_state s)
    else .error .InvalidDiscountRate
  else .error .InvalidProbability

/-- Modelled from the spec: validated trade-off.  The source has no validation
(the slider at src/Introduction.py line 496 bounds the abatement level to
[0, 100]); the spec requires abatement_pct in [0, 100] (OutOfRange otherwise),
with no clamping or default substitution. -/
def transition_physical_tradeoff_checked (abatement_pct : ℚ) :
    Except EngineError TradeoffResult :=
  if 0 ≤ abatement_pct ∧ abatement_pct ≤ 100 then
    .ok (transition_physical_tradeoff abatement_pct)
  else .error .OutOfRange

/-- Modelled from the spec: expected payoff prob_u*cf_u + (1-prob_u)*cf_d.
The source fixes the probability at 0.5 (src/pages/02 line 332 computes
expected_x = 0.5*(x_u + x_d)); this is the spec's prob_u generalization. -/
def expected_payoff (s : StochasticDiscountScenario) : ℚ :=
  s.prob_u * s.cf_u + (1 - s.prob_u) * s.cf_d

/-- Modelled from the spec: risk-free rate 1/(prob_u*m_u + (1-prob_u)*m_d).
The source fixes the probability at 0.5 (src/pages/02 line 323 computes
rf_inverse = 1/(0.5*(m_u + m_d))); this is the spec's prob_u
generalization. -/
def risk_free_rate (s : StochasticDiscountScenario) : ℚ :=
  1 / (s.prob_u * s.m_u + (1 - s.prob_u) * s.m_d)

/-- Modelled from the spec: expected return expected_payoff / price with a
typed DivisionByZero failure exactly when the price is zero.  The source
divides directly (src/pages/02 line 341: expected_return = expected_x /
price) with no zero check. -/
def expected_return_checked (s : StochasticDiscountScenario) :
    Except EngineError ℚ :=
  if price_stochastic_discount s = 0 then .error .DivisionByZero
  else .ok (expected_payoff s / price_stochastic_discount s)

/-- Risk premium, from src/pages/02 lines 341-342: expected_return minus the
risk-free rate (both in their spec prob_u generalization). -/
def risk_premium (s : StochasticDiscountScenario) : ℚ :=
  expected_payoff s / price_stochastic_discount s - risk_free_rate s

/-- Radio-button asset choice of src/pages/02 lines 313-316. -/
inductive AssetChoice where
  | paysMoreInGoodTimes
  | paysMoreInBadTimes
deriving DecidableEq

/-- Fixed pricing-kernel value in the good state, src/pages/02 line 319. -/
def page02_m_u : ℚ := 1/2

/-- Fixed pricing-kernel value in the bad state, src/pages/02 line 320. -/
def page02_m_d : ℚ := 1

/-- Cash-flow assignment of src/pages/02 lines 326-329: (x_u, x_d) = (2, 1)
when the asset pays more in good times, (1, 2) when it pays more in bad
times. -/
def page02_cash_flows : AssetChoice → ℚ × ℚ
  | .paysMoreInGoodTimes => (2, 1)
  | .paysMoreInBadTimes => (1, 2)

/-- Price of the selected asset, src/pages/02 line 338:
price = 0.5*m_u*x_u + 0.5*m_d*x_d. -/
def page02_price (c : AssetChoice) : ℚ :=
  1/2 * page02_m_u * (page02_cash_flows c).1
    + 1/2 * page02_m_d * (page02_cash_flows c).2

/-- Expected payoff of the selected asset, src/pages/02 line 332:
expected_x = 0.5*(x_u + x_d). -/
def page02_expected_x (c : AssetChoice) : ℚ :=
  1/2 * ((page02_cash_flows c).1 + (page02_cash_flows c).2)

/-- Real-valued copy of the two-state price for the analytic properties; the
same formula as price_two_state with the probability as the last explicit
argument (src/Introduction.py lines 123-128). -/
noncomputable def price_two_state_real (cf_a r_a cf_b r_b prob_a : ℝ) : ℝ :=
  let prob_b := 1 - prob_a
  let expected_cf := prob_a * cf_a + prob_b * cf_b
  let expected_r := prob_a * r_a + prob_b * r_b
  expected_cf / (1 + expected_r)

lemma price_two_state_real_eq (cf_a r_a cf_b r_b p : ℝ) :
    price_two_state_real cf_a r_a cf_b r_b p
      = (p * cf_a + (1 - p) * cf_b) / (1 + (p * r_a + (1 - p) * r_b)) := rfl

lemma two_state_denom_pos {r_a r_b : ℝ} (ha : 0 < 1 + r_a) (hb : 0 < 1 + r_b)
    {p : ℝ} (h0 : 0 ≤ p) (h1 : p ≤ 1) :
    0 < 1 + (p * r_a + (1 - p) * r_b) := by
  rcases le_total r_a r_b with h | h
  · nlinarith [mul_nonneg (sub_nonneg.mpr h1) (sub_nonneg.mpr h)]
  · nlinarith [mul_nonneg h0 (sub_nonneg.mpr h)]

lemma monotoneOn_or_antitoneOn_between {f : ℝ → ℝ}
    (h : MonotoneOn f (Set.Icc 0 1) ∨ AntitoneOn f (Set.Icc 0 1))
    {p : ℝ} (hp : p ∈ Set.Icc (0:ℝ) 1) :
    (f 0 ≤ f p ∧ f p ≤ f 1) ∨ (f 1 ≤ f p ∧ f p ≤ f 0) := by
  have h0 : (0:ℝ) ∈ Set.Icc (0:ℝ) 1 := by norm_num
  have h1 : (1:ℝ) ∈ Set.Icc (0:ℝ) 1 := by norm_num
  rcases h with h | h
  · exact Or.inl ⟨h h0 hp hp.1, h hp h1 hp.2⟩
  · exact Or.inr ⟨h hp h1 hp.2, h h0 hp hp.1⟩

lemma equal_cf_monotone (c r_a r_b : ℝ) (ha : 0 < 1 + r_a) (hb : 0 < 1 + r_b) :
    MonotoneOn (fun p => price_two_state_real c r_a c r_b p) (Set.Icc 0 1)
      ∨ AntitoneOn (fun p => price_two_state_real c r_a c r_b p)
          (Set.Icc 0 1) := by
  rcases le_total 0 (c * (r_b - r_a)) with hs | hs
  · left
    intro p hp q hq hpq
    have hDp := two_state_denom_pos ha hb hp.1 hp.2
    have hDq := two_state_denom_pos ha hb hq.1 hq.2
    simp only [price_two_state_real_eq]
    rw [div_le_div_iff hDp hDq]
    nlinarith [mul_nonneg hs (sub_nonneg.mpr hpq)]
  · right
    intro p hp q hq hpq
    have hDp := two_state_denom_pos ha hb hp.1 hp.2
    have hDq := two_state_denom_pos ha hb hq.1 hq.2
    simp only [price_two_state_real_eq]
    rw [div_le_div_iff hDq hDp]
    nlinarith [mul_nonneg (neg_nonneg.mpr hs) (sub_nonneg.mpr hpq)]

lemma equal_r_monotone (cf_a cf_b r : ℝ) (h : 0 < 1 + r) :
    MonotoneOn (fun p => price_two_state_real cf_a r cf_b r p) (Set.Icc 0 1)
      ∨ AntitoneOn (fun p => price_two_state_real cf_a r cf_b r p)
          (Set.Icc 0 1) := by
  rcases le_total cf_b cf_a with hs | hs
  · left
    intro p hp q hq hpq
    have hDp := two_state_denom_pos h h hp.1 hp.2
    have hDq := two_state_denom_pos h h hq.1 hq.2
    simp only [price_two_state_real_eq]
    rw [div_le_div_iff hDp hDq]
    nlinarith [mul_nonneg (mul_nonneg (sub_nonneg.mpr hpq)
      (sub_nonneg.mpr hs)) h.le]
  · right
    intro p hp q hq hpq
    have hDp := two_state_denom_pos h h hp.1 hp.2
    have hDq := two_state_denom_pos h h hq.1 hq.2
    simp only [price_two_state_real_eq]
    rw [div_le_div_iff hDq hDp]
    nlinarith [mul_nonneg (mul_nonneg (sub_nonneg.mpr hpq)
      (sub_nonneg.mpr hs)) h.le]

lemma price_two_state_real_continuousOn (cf_a r_a cf_b r_b : ℝ)
    (ha : 0 < 1 + r_a) (hb : 0 < 1 + r_b) :
    ContinuousOn (fun p => price_two_state_real cf_a r_a cf_b r_b p)
      (Set.Icc 0 1) := by
  simp only [price_two_state_real_eq]
  refine ContinuousOn.div ?_ ?_ ?_
  · exact (Continuous.continuousOn (by continuity))
  · exact (Continuous.continuousOn (by continuity))
  · exact fun p hp => ne_of_gt (two_state_denom_pos ha hb hp.1 hp.2)

/-- Claim C1: for every TwoStateScenario with prob_a in [0, 1] and 1+r_a and
1+r_b positive, price_two_state returns exactly the probability-weighted
expected cash flow divided by one plus the probability-weighted expected
discount rate. -/
theorem c1_price_two_state_formula (s : TwoStateScenario)
    (h0 : 0 ≤ s.prob_a) (h1 : s.prob_a ≤ 1)
    (ha : 0 < 1 + s.r_a) (hb : 0 < 1 + s.r_b) :
    price_two_state s
      = (s.prob_a * s.cf_a + (1 - s.prob_a) * s.cf_b)
        / (1 + (s.prob_a * s.r_a + (1 - s.prob_a) * s.r_b)) := rfl

/-- Witness for C1 at the source's own fixed parameters cf_a = 100,
r_a = 0.05, cf_b = 50, r_b = 0.10, prob_a = 0.5. -/
theorem c1_price_two_state_formula_witness :
    price_two_state ⟨100, 1/20, 50, 1/10, 1/2⟩
      = ((1:ℚ)/2 * 100 + (1 - 1/2) * 50)
        / (1 + ((1:ℚ)/2 * (1/20) + (1 - 1/2) * (1/10))) :=
  c1_price_two_state_formula ⟨100, 1/20, 50, 1/10, 1/2⟩
    (by norm_num) (by norm_num) (by norm_num) (by norm_num)

/-- Claim C2: for every StochasticDiscountScenario with prob_u in [0, 1] and
non-negative kernel values, price_stochastic_discount returns exactly
prob_u*m_u*cf_u + (1-prob_u)*m_d*cf_d, and at cf_u = 2, cf_d = 1,
m_u = 0.5, m_d = 1, prob_u = 0.5 it returns 1. -/
theorem c2_price_stochastic_discount_formula (s : StochasticDiscountScenario)
    (h0 : 0 ≤ s.prob_u) (h1 : s.prob_u ≤ 1)
    (hu : 0 ≤ s.m_u) (hd : 0 ≤ s.m_d) :
    price_stochastic_discount s
        = s.prob_u * s.m_u * s.cf_u + (1 - s.prob_u) * s.m_d * s.cf_d
      ∧ price_stochastic_discount ⟨2, 1, 1/2, 1, 1/2⟩ = 1 :=
  ⟨rfl, by norm_num [price_stochastic_discount]⟩

/-- Witness for C2 at the spec's concrete example scenario. -/
theorem c2_price_stochastic_discount_formula_witness :
    price_stochastic_discount ⟨2, 1, 1/2, 1, 1/2⟩
        = (1:ℚ)/2 * (1/2) * 2 + (1 - 1/2) * 1 * 1
      ∧ price_stochastic_discount ⟨2, 1, 1/2, 1, 1/2⟩ = 1 :=
  c2_price_stochastic_discount_formula ⟨2, 1, 1/2, 1, 1/2⟩
    (by norm_num) (by norm_num) (by norm_num) (by norm_num)

/-- Claim C3: on [0, 100] the trade-off returns transition cost 2*(x/100)^2
and physical damage (1 - x/100)^2, mapping 0 to (0, 1), 100 to (2, 0) and
50 to (0.5, 0.25). -/
theorem c3_tradeoff_formula (x : ℚ) (h0 : 0 ≤ x) (h1 : x ≤ 100) :
    transition_physical_tradeoff x
        = ⟨2 * (x / 100) ^ 2, (1 - x / 100) ^ 2⟩
      ∧ transition_physical_tradeoff 0 = ⟨0, 1⟩
      ∧ transition_physical_tradeoff 100 = ⟨2, 0⟩
      ∧ transition_physical_tradeoff 50 = ⟨1/2, 1/4⟩ := by
  refine ⟨rfl, ?_, ?_, ?_⟩ <;>
    simp [transition_physical_tradeoff, TradeoffResult.mk.injEq] <;> norm_num

/-- Witness for C3 at abatement_pct = 50. -/
theorem c3_tradeoff_formula_witness :
    transition_physical_tradeoff 50
        = ⟨2 * ((50:ℚ) / 100) ^ 2, (1 - (50:ℚ) / 100) ^ 2⟩ :=
  (c3_tradeoff_formula 50 (by norm_num) (by norm_num)).1

/-- Claim C4: out-of-domain inputs fail with the documented typed error and
in-domain inputs are computed without clamping or substitution: prob_a
outside [0, 1] gives InvalidProbability (e.g. prob_a = 1.5) and abatement
outside [0, 100] gives OutOfRange (e.g. -5). -/
theorem c4_validation (s : TwoStateScenario) (x : ℚ) :
    (¬ (0 ≤ s.prob_a ∧ s.prob_a ≤ 1) →
        price_two_state_checked s = .error .InvalidProbability)
  ∧ ((0 ≤ s.prob_a ∧ s.prob_a ≤ 1) → (0 < 1 + s.r_a ∧ 0 < 1 + s.r_b) →
        price_two_state_checked s = .ok (price_two_state s))
  ∧ (¬ (0 ≤ x ∧ x ≤ 100) →
        transition_physical_tradeoff_checked x = .error .OutOfRange)
  ∧ ((0 ≤ x ∧ x ≤ 100) →
        transition_physical_tradeoff_checked x
          = .ok (transition_physical_tradeoff x))
  ∧ price_two_state_checked ⟨100, 1/20, 50, 1/10, 3/2⟩
      = .error .InvalidProbability
  ∧ transition_physical_tradeoff_checked (-5) = .error .OutOfRange := by
  refine ⟨?_, ?_, ?_, ?_, ?_, ?_⟩
  · intro h
    simp [price_two_state_checked, h]
  · intro h hr
    simp [price_two_state_checked, h, hr]
  · intro h
    simp [transition_physical_tradeoff_checked, h]
  · intro h
    simp [transition_physical_tradeoff_checked, h]
  · norm_num [price_two_state_checked]
  · norm_num [transition_physical_tradeoff_checked]

/-- Witness for C4 at the spec's example invalid inputs prob_a = 1.5 and
abatement_pct = -5. -/
theorem c4_validation_witness :
    price_two_state_checked ⟨100, 1/20, 50, 1/10, 3/2⟩
        = .error .InvalidProbability
  ∧ transition_physical_tradeoff_checked (-5) = .error .OutOfRange :=
  ⟨((c4_validation ⟨100, 1/20, 50, 1/10, 3/2⟩ (-5)).1 (by norm_num)),
    ((c4_validation ⟨100, 1/20, 50, 1/10, 3/2⟩ (-5)).2.2.1 (by norm_num))⟩

/-- Counterexample for C5: at cf_a = 100, r_a = 0.05, cf_b = 50, r_b = 0.10,
prob_a = 0.5 the two-state price is not 100. -/
theorem c5_counterexample :
    price_two_state ⟨100, 1/20, 50, 1/10, 1/2⟩ ≠ 100 := by
  norm_num [price_two_state]

/-- Claim C5 amended: at that input price_two_state returns 75/1.075 =
3000/43, approximately 69.77 as the claim's own parenthetical derivation
states, and not 100.0. -/
theorem c5_amended :
    price_two_state ⟨100, 1/20, 50, 1/10, 1/2⟩ = 3000/43
  ∧ |price_two_state ⟨100, 1/20, 50, 1/10, 1/2⟩ - 6977/100| < 1/100 := by
  constructor
  · norm_num [price_two_state]
  · rw [abs_sub_lt_iff]
    constructor <;> norm_num [price_two_state]

/-- Claim C6: with kernel m_u = 0.5, m_d = 1 and equal probabilities, the
asset paying more in bad times is priced 1.25, strictly above the 1.0 of the
symmetric asset paying more in good times, while both have the same expected
payoff. -/
theorem c6_bad_times_premium :
    price_stochastic_discount ⟨1, 2, 1/2, 1, 1/2⟩ = 5/4
  ∧ price_stochastic_discount ⟨2, 1, 1/2, 1, 1/2⟩ = 1
  ∧ price_stochastic_discount ⟨2, 1, 1/2, 1, 1/2⟩
      < price_stochastic_discount ⟨1, 2, 1/2, 1, 1/2⟩
  ∧ expected_payoff ⟨1, 2, 1/2, 1, 1/2⟩ = expected_payoff ⟨2, 1, 1/2, 1, 1/2⟩ := by
  refine ⟨?_, ?_, ?_, ?_⟩ <;>
    norm_num [price_stochastic_discount, expected_payoff]

/-- Claim C7: on [0, 100] the transition cost is non-decreasing, the physical
damage is non-increasing, and both outputs are non-negative (as exact rational
values they are in particular finite). -/
theorem c7_tradeoff_monotone (x y : ℚ) (h0 : 0 ≤ x) (hxy : x ≤ y)
    (h100 : y ≤ 100) :
    (transition_physical_tradeoff x).transition_cost_pct
        ≤ (transition_physical_tradeoff y).transition_cost_pct
  ∧ (transition_physical_tradeoff y).physical_damage_pct
        ≤ (transition_physical_tradeoff x).physical_damage_pct
  ∧ 0 ≤ (transition_physical_tradeoff x).transition_cost_pct
  ∧ 0 ≤ (transition_physical_tradeoff x).physical_damage_pct := by
  dsimp only [transition_physical_tradeoff]
  refine ⟨?_, ?_, ?_, ?_⟩
  · nlinarith [mul_nonneg (sub_nonneg.mpr hxy)
      (show (0:ℚ) ≤ x + y by linarith)]
  · have hab1 : (0:ℚ) ≤ (1 - x / 100) - (1 - y / 100) := by linarith
    have hab2 : (0:ℚ) ≤ (1 - x / 100) + (1 - y / 100) := by linarith
    nlinarith [mul_nonneg hab1 hab2]
  · positivity
  · positivity

/-- Witness for C7 at x = 25, y = 75. -/
theorem c7_tradeoff_monotone_witness :
    (transition_physical_tradeoff 25).transition_cost_pct
        ≤ (transition_physical_tradeoff 75).transition_cost_pct
  ∧ (transition_physical_tradeoff 75).physical_damage_pct
        ≤ (transition_physical_tradeoff 25).physical_damage_pct
  ∧ 0 ≤ (transition_physical_tradeoff 25).transition_cost_pct
  ∧ 0 ≤ (transition_physical_tradeoff 25).physical_damage_pct :=
  c7_tradeoff_monotone 25 75 (by norm_num) (by norm_num) (by norm_num)

/-- Claim C8: the derived diagnostics equal the spec's formulas — expected
payoff prob_u*cf_u + (1-prob_u)*cf_d, risk-free rate
1/(prob_u*m_u + (1-prob_u)*m_d), expected return expected_payoff/price with
risk premium its difference from the risk-free rate — and the expected
return fails with DivisionByZero exactly when the price is zero. -/
theorem c8_diagnostics (s : StochasticDiscountScenario)
    (h0 : 0 ≤ s.prob_u) (h1 : s.prob_u ≤ 1)
    (hu : 0 ≤ s.m_u) (hd : 0 ≤ s.m_d) :
    expected_payoff s = s.prob_u * s.cf_u + (1 - s.prob_u) * s.cf_d
  ∧ risk_free_rate s = 1 / (s.prob_u * s.m_u + (1 - s.prob_u) * s.m_d)
  ∧ (price_stochastic_discount s ≠ 0 →
      expected_return_checked s
          = .ok (expected_payoff s / price_stochastic_discount s)
      ∧ risk_premium s
          = expected_payoff s / price_stochastic_discount s
            - risk_free_rate s)
  ∧ (expected_return_checked s = .error .DivisionByZero
      ↔ price_stochastic_discount s = 0) := by
  refine ⟨rfl, rfl, fun h => ⟨?_, rfl⟩, ?_, ?_⟩
  · simp [expected_return_checked, h]
  · intro h
    by_contra hp
    simp [expected_return_checked, hp] at h
  · intro h
    simp [expected_return_checked, h]

/-- Witness for C8 at the page's own good-times scenario cf_u = 2, cf_d = 1,
m_u = 0.5, m_d = 1, prob_u = 0.5. -/
theorem c8_diagnostics_witness :
    expected_payoff ⟨2, 1, 1/2, 1, 1/2⟩
        = (1:ℚ)/2 * 2 + (1 - 1/2) * 1
  ∧ risk_free_rate ⟨2, 1, 1/2, 1, 1/2⟩
        = 1 / ((1:ℚ)/2 * (1/2) + (1 - 1/2) * 1) :=
  ⟨(c8_diagnostics ⟨2, 1, 1/2, 1, 1/2⟩
      (by norm_num) (by norm_num) (by norm_num) (by norm_num)).1,
    (c8_diagnostics ⟨2, 1, 1/2, 1, 1/2⟩
      (by norm_num) (by norm_num) (by norm_num) (by norm_num)).2.1⟩

/-- Claim C9: on prob_a in [0, 1] the two-state price is continuous; with
equal cash flows (only the rates varying) it is monotone in prob_a and its
value lies between the prices at prob_a = 0 and prob_a = 1, and symmetrically
with equal rates (only the cash flows varying). -/
theorem c9_price_two_state_analytic (cf_a r_a cf_b r_b : ℝ)
    (ha : 0 < 1 + r_a) (hb : 0 < 1 + r_b) :
    ContinuousOn (fun p => price_two_state_real cf_a r_a cf_b r_b p)
      (Set.Icc 0 1)
  ∧ (cf_a = cf_b →
      (MonotoneOn (fun p => price_two_state_real cf_a r_a cf_b r_b p)
          (Set.Icc 0 1)
        ∨ AntitoneOn (fun p => price_two_state_real cf_a r_a cf_b r_b p)
            (Set.Icc 0 1))
      ∧ ∀ p ∈ Set.Icc (0:ℝ) 1,
          (price_two_state_real cf_a r_a cf_b r_b 0
              ≤ price_two_state_real cf_a r_a cf_b r_b p
            ∧ price_two_state_real cf_a r_a cf_b r_b p
              ≤ price_two_state_real cf_a r_a cf_b r_b 1)
          ∨ (price_two_state_real cf_a r_a cf_b r_b 1
              ≤ price_two_state_real cf_a r_a cf_b r_b p
            ∧ price_two_state_real cf_a r_a cf_b r_b p
              ≤ price_two_state_real cf_a r_a cf_b r_b 0))
  ∧ (r_a = r_b →
      (MonotoneOn (fun p => price_two_state_real cf_a r_a cf_b r_b p)
          (Set.Icc 0 1)
        ∨ AntitoneOn (fun p => price_two_state_real cf_a r_a cf_b r_b p)
            (Set.Icc 0 1))
      ∧ ∀ p ∈ Set.Icc (0:ℝ) 1,
          (price_two_state_real cf_a r_a cf_b r_b 0
              ≤ price_two_state_real cf_a r_a cf_b r_b p
            ∧ price_two_state_real cf_a r_a cf_b r_b p
              ≤ price_two_state_real cf_a r_a cf_b r_b 1)
          ∨ (price_two_state_real cf_a r_a cf_b r_b 1
              ≤ price_two_state_real cf_a r_a cf_b r_b p
            ∧ price_two_state_real cf_a r_a cf_b r_b p
              ≤ price_two_state_real cf_a r_a cf_b r_b 0)) := by
  refine ⟨price_two_state_real_continuousOn cf_a r_a cf_b r_b ha hb, ?_, ?_⟩
  · intro hcf
    subst hcf
    have hm := equal_cf_monotone cf_a r_a r_b ha hb
    exact ⟨hm, fun p hp => monotoneOn_or_antitoneOn_between hm hp⟩
  · intro hr
    subst hr
    have hm := equal_r_monotone cf_a cf_b r_a ha
    exact ⟨hm, fun p hp => monotoneOn_or_antitoneOn_between hm hp⟩

/-- Witness for C9 at the source's fixed parameters (continuity part) and at
equal cash flows 100 with rates 0.05 and 0.10 (monotone part). -/
theorem c9_price_two_state_analytic_witness :
    ContinuousOn (fun p => price_two_state_real 100 (1/20) 50 (1/10) p)
      (Set.Icc 0 1)
  ∧ (MonotoneOn (fun p => price_two_state_real 100 (1/20) 100 (1/10) p)
        (Set.Icc 0 1)
      ∨ AntitoneOn (fun p => price_two_state_real 100 (1/20) 100 (1/10) p)
          (Set.Icc 0 1)) :=
  ⟨(c9_price_two_state_analytic 100 (1/20) 50 (1/10)
      (by norm_num) (by norm_num)).1,
    ((c9_price_two_state_analytic 100 (1/20) 100 (1/10)
      (by norm_num) (by norm_num)).2.1 rfl).1⟩

/-- Claim C10: for both selectable cash-flow assignments of the
state-dependent discount-factor page, the computed price is at least 1 and
in particular nonzero, so the expected-return division is well-defined. -/
theorem c10_page02_price_safe :
    (1 ≤ page02_price .paysMoreInGoodTimes
      ∧ page02_price .paysMoreInGoodTimes ≠ 0)
  ∧ (1 ≤ page02_price .paysMoreInBadTimes
      ∧ page02_price .paysMoreInBadTimes ≠ 0) := by
  refine ⟨⟨?_, ?_⟩, ⟨?_, ?_⟩⟩ <;>
    norm_num [page02_price, page02_cash_flows, page02_m_u, page02_m_d]
